import Mathlib

/-!
Shallow embedding of the volatility-tracking backend (src/backend/index.js)
and proofs about its core operations: price-history recording, volatility
classification, alert registration, cleanup, snapshots, the rate-limited
fetch and the paginated market fetch.

Prices are modelled as rationals, timestamps as integers (milliseconds).
JS `Map`s are modelled as insertion-ordered association lists, matching the
iteration order `Map.values()` guarantees.
-/

/-- One price sample as pushed onto `priceHistory` (index.js line 137):
`{ price, timestamp }`. -/
structure Sample where
  price : ℚ
  timestamp : ℤ
deriving Repr, DecidableEq

instance : Inhabited Sample := ⟨⟨0, 0⟩⟩

/-- A per-ticker history series: the value type of the `priceHistory` map. -/
abbrev History := List Sample

/-- `WINDOW_MS = 12 * 60 * 60 * 1000` (index.js line 24). -/
def WINDOW_MS : ℤ := 12 * 60 * 60 * 1000

/-- The alert object constructed at index.js lines 163-174 (poll path) and
243-254 (bootstrap path). `timestamp` is the firing time (the source stores
it as an ISO string of the current time; we keep the epoch-milliseconds
value). -/
structure Alert where
  ticker : String
  title : String
  currentPrice : ℚ
  oldPrice : ℚ
  priceChange : ℚ
  direction : String
  minPrice : ℚ
  maxPrice : ℚ
  timestamp : ℤ
  tier : ℕ
deriving Repr, DecidableEq

/-- `Math.min(...)` over a list of prices; only ever used on series with at
least two elements, so the default for `[]` is irrelevant. -/
def listMin : List ℚ → ℚ
  | [] => 0
  | x :: xs => xs.foldl min x

/-- `Math.max(...)` over a list of prices. -/
def listMax : List ℚ → ℚ
  | [] => 0
  | x :: xs => xs.foldl max x

/-- The history-recording step of `checkVolatility` (index.js lines 133-142):
append the current price at time `now`, then keep only samples with
`timestamp >= now - WINDOW_MS`. -/
def recordSample (history : History) (currentPrice : ℚ) (now : ℤ) : History :=
  (history ++ [(⟨currentPrice, now⟩ : Sample)]).filter (fun h => now - WINDOW_MS ≤ h.timestamp)

/-- The classification-and-alert-construction tail of `checkVolatility`
(index.js lines 147-177): guard against a zero reference price, compute the
relative change, pick the tier by the 20% / 10% / 5% thresholds, and build
the alert object. -/
def classifyAlert (ticker title : String) (currentPrice oldestPrice minPrice maxPrice : ℚ)
    (now : ℤ) : Option Alert :=
  if oldestPrice = 0 then none
  else
    let priceChange := (currentPrice - oldestPrice) / oldestPrice
    let absChange := |priceChange|
    let tier : Option ℕ :=
      if absChange ≥ 20/100 then some 20
      else if absChange ≥ 10/100 then some 10
      else if absChange ≥ 5/100 then some 5
      else none
    match tier with
    | some t => some
        { ticker := ticker
          title := title
          currentPrice := currentPrice
          oldPrice := oldestPrice
          priceChange := priceChange * 100
          direction := if priceChange > 0 then "up" else "down"
          minPrice := minPrice
          maxPrice := maxPrice
          timestamp := now
          tier := t }
    | none => none

/-- `checkVolatility` (index.js lines 132-178). Returns the updated (trimmed)
history that the source writes back into `priceHistory`, together with the
alert, if any. -/
def checkVolatility (history : History) (ticker title : String) (currentPrice : ℚ)
    (now : ℤ) : History × Option Alert :=
  let filtered := recordSample history currentPrice now
  if filtered.length < 2 then (filtered, none)
  else
    let oldestPrice := (filtered.headD default).price
    let minPrice := listMin (filtered.map Sample.price)
    let maxPrice := listMax (filtered.map Sample.price)
    (filtered, classifyAlert ticker title currentPrice oldestPrice minPrice maxPrice now)

/-- C1 helper: the relative change `(current - reference) / reference`. -/
def deltaOf (current reference : ℚ) : ℚ := (current - reference) / reference

/-- JS `a || b` on numbers (0 is falsy). -/
def jsOr (a b : ℚ) : ℚ := if a ≠ 0 then a else b

/-- JS `a || b` on strings (the empty string is falsy). -/
def jsOrS (a b : String) : String := if a ≠ "" then a else b

/-- One market object as returned by the markets endpoint; the fields the
backend reads. Quoted prices are in cents. -/
structure Market where
  ticker : String
  title : String
  subtitle : String
  last_price : ℚ
  yes_ask : ℚ
  previous_price : ℚ
  previous_yes_bid : ℚ
  volume : ℚ
deriving Repr, DecidableEq

/-- `market.title || market.subtitle || ticker` (index.js lines 200, 288). -/
def marketTitle (m : Market) : String := jsOrS m.title (jsOrS m.subtitle m.ticker)

/-- `(market.last_price || market.yes_ask || 0) / 100` (index.js lines 201, 290). -/
def marketCurrentPrice (m : Market) : ℚ := jsOr m.last_price (jsOr m.yes_ask 0) / 100

/-- `(market.previous_price || market.previous_yes_bid || 0) / 100`
(index.js line 202). -/
def marketPreviousPrice (m : Market) : ℚ :=
  jsOr m.previous_price (jsOr m.previous_yes_bid 0) / 100

/-- A tier's alert map (`triggeredAlerts.tierN`), modelled as an
insertion-ordered association list, matching JS `Map` iteration order. -/
abbrev TierMap := List (String × Alert)

/-- JS `Map.has`. -/
def tierHas (m : TierMap) (k : String) : Bool := m.any (fun p => p.1 == k)

/-- JS `Map.set`: replace in place if the key exists, else append. In the
backend `set` is only ever called when `has` is false. -/
def tierSet (m : TierMap) (k : String) (v : Alert) : TierMap :=
  if tierHas m k then m.map (fun p => if p.1 == k then (k, v) else p)
  else m ++ [(k, v)]

/-- JS `Map.values()` in insertion order. -/
def tierValues (m : TierMap) : List Alert := m.map Prod.snd

/-- The `triggeredAlerts` object (index.js lines 19-23): three independent
tier maps. -/
structure Registry where
  tier20 : TierMap
  tier10 : TierMap
  tier5 : TierMap
deriving Repr, DecidableEq

/-- `triggeredAlerts[`tier${tier}`]` lookup. -/
def Registry.getTier (st : Registry) (t : ℕ) : TierMap :=
  if t = 20 then st.tier20 else if t = 10 then st.tier10 else st.tier5

/-- Write back one tier map. -/
def Registry.setTier (st : Registry) (t : ℕ) (m : TierMap) : Registry :=
  if t = 20 then { st with tier20 := m }
  else if t = 10 then { st with tier10 := m }
  else { st with tier5 := m }

/-- The registration step shared verbatim by `pollMarkets` (index.js lines
296-306) and `bootstrapHistoricalData` (lines 256-262): if the alert's tier
map does not yet contain the ticker, insert the alert and broadcast it;
otherwise do nothing. Returns the new registry and the broadcast pushes. -/
def registerAlert (st : Registry) (alert : Alert) : Registry × List Alert :=
  let tierMap := st.getTier alert.tier
  if tierHas tierMap alert.ticker then (st, [])
  else (st.setTier alert.tier (tierSet tierMap alert.ticker alert), [alert])

/-- One iteration of the `pollMarkets` per-market loop (index.js lines
286-307), acting on this market's history series. Returns the updated
registry, the updated history, and the broadcast pushes. -/
def pollStep (st : Registry) (hist : History) (m : Market) (now : ℤ) :
    Registry × History × List Alert :=
  let currentPrice := marketCurrentPrice m
  if currentPrice = 0 then (st, hist, [])
  else
    match checkVolatility hist m.ticker (marketTitle m) currentPrice now with
    | (hist2, none) => (st, hist2, [])
    | (hist2, some alert) =>
      let r := registerAlert st alert
      (r.1, hist2, r.2)

/-- `cleanupAlerts` (index.js lines 317-326): from every tier map delete the
entries whose firing time is strictly older than `now - WINDOW_MS`. -/
def cleanupAlerts (st : Registry) (now : ℤ) : Registry :=
  let cutoff := now - WINDOW_MS
  { tier20 := st.tier20.filter (fun p => !decide (p.2.timestamp < cutoff))
    tier10 := st.tier10.filter (fun p => !decide (p.2.timestamp < cutoff))
    tier5 := st.tier5.filter (fun p => !decide (p.2.timestamp < cutoff)) }

/-- The `/api/alerts` handler's per-tier sort (index.js lines 343-348):
JS `Array.sort` with comparator `(a, b) => |b.priceChange| - |a.priceChange|`,
i.e. a stable sort placing `a` before `b` when `|a| ≥ |b|`. -/
def sortAlerts (l : List Alert) : List Alert :=
  l.mergeSort (fun a b => decide (|b.priceChange| ≤ |a.priceChange|))

/-- The `/api/alerts` response body (index.js lines 342-350). -/
def apiSnapshot (st : Registry) : List Alert × List Alert × List Alert :=
  (sortAlerts (tierValues st.tier20), sortAlerts (tierValues st.tier10),
   sortAlerts (tierValues st.tier5))

/-- The initial snapshot sent to a WebSocket subscriber on connect
(index.js lines 407-412): the raw `Map.values()` arrays, in insertion
order, with no sort. -/
def wsInitialSnapshot (st : Registry) : List Alert × List Alert × List Alert :=
  (tierValues st.tier20, tierValues st.tier10, tierValues st.tier5)

/-- Concrete history used by several witnesses: one sample at price 0.5,
time 0. -/
def wHist : History := [⟨1/2, 0⟩]

/-- Concrete market used by several witnesses: last price 65 cents. -/
def wMarket : Market :=
  { ticker := "M", title := "T", subtitle := "", last_price := 65, yes_ask := 0,
    previous_price := 0, previous_yes_bid := 0, volume := 1 }

/-- The tier-20 alert that a poll cycle over `wHist` and `wMarket` at time
1000 produces. -/
def wAlert : Alert :=
  { ticker := "M", title := "T", currentPrice := 65/100, oldPrice := 1/2,
    priceChange := 30, direction := "up", minPrice := 1/2, maxPrice := 65/100,
    timestamp := 1000, tier := 20 }

/-- A registry that already holds `wAlert` in its tier-20 map. -/
def wRegistry : Registry := ⟨[("M", wAlert)], [], []⟩

/-- The registry at server start: all three tier maps empty. -/
def emptyRegistry : Registry := ⟨[], [], []⟩

/-- The same market on a later cycle, quoting 53 cents. -/
def wMarket2 : Market := { wMarket with last_price := 53 }

/-- The tier-5 alert fired for `wMarket2` on the second cycle. -/
def wAlert2 : Alert :=
  { ticker := "M", title := "T", currentPrice := 53/100, oldPrice := 1/2,
    priceChange := 6, direction := "up", minPrice := 1/2, maxPrice := 65/100,
    timestamp := 2000, tier := 5 }

/-- Tier-20 alert with `percentChange = +22`, inserted first. -/
def cAlertA : Alert :=
  { ticker := "A", title := "A", currentPrice := 0, oldPrice := 0, priceChange := 22,
    direction := "up", minPrice := 0, maxPrice := 0, timestamp := 0, tier := 20 }

/-- Tier-20 alert with `percentChange = -35`, inserted second. -/
def cAlertB : Alert :=
  { ticker := "B", title := "B", currentPrice := 0, oldPrice := 0, priceChange := -35,
    direction := "down", minPrice := 0, maxPrice := 0, timestamp := 0, tier := 20 }

/-- Tier-20 alert with `percentChange = +21`, inserted third. -/
def cAlertC : Alert :=
  { ticker := "C", title := "C", currentPrice := 0, oldPrice := 0, priceChange := 21,
    direction := "up", minPrice := 0, maxPrice := 0, timestamp := 0, tier := 20 }

/-- A registry whose tier-20 map received alerts with `percentChange`
`+22, -35, +21`, in that insertion order. -/
def cRegistry : Registry := ⟨[("A", cAlertA), ("B", cAlertB), ("C", cAlertC)], [], []⟩

/-- One candlestick from the external source (the fields the backend reads;
prices in cents). `openPrice` embeds the JSON field `open`, a Lean keyword. -/
structure Candle where
  openPrice : ℚ
  close : ℚ
  end_period_ts : ℤ
deriving Repr, DecidableEq

/-- The seeding part of one bootstrap iteration (index.js lines 206-227):
from the fetched candlesticks, or the previous-price fallback, compute the
reference (`oldestPrice`) and the history series to store. Yields `(0, [])`
when neither source is usable. -/
def bootstrapSeed (currentPrice previousPrice : ℚ) (candlesticks : List Candle)
    (now : ℤ) : ℚ × History :=
  match candlesticks with
  | c0 :: _ =>
    (jsOr c0.openPrice c0.close / 100,
     candlesticks.map (fun c => (⟨c.close / 100, c.end_period_ts * 1000⟩ : Sample))
       ++ [(⟨currentPrice, now⟩ : Sample)])
  | [] =>
    if previousPrice > 0 ∧ previousPrice ≠ currentPrice then
      (previousPrice, [⟨previousPrice, now - WINDOW_MS⟩, ⟨currentPrice, now⟩])
    else (0, [])

/-- One iteration of the bootstrap loop (index.js lines 197-266), given the
candlesticks the external source returned for this market. Returns the
updated registry, the history stored for this ticker (`none` when the
market is skipped because its current price is 0), and the broadcast
pushes. -/
def bootstrapStep (st : Registry) (m : Market) (candlesticks : List Candle) (now : ℤ) :
    Registry × Option History × List Alert :=
  let currentPrice := marketCurrentPrice m
  let previousPrice := marketPreviousPrice m
  if currentPrice = 0 then (st, none, [])
  else
    let seeded := bootstrapSeed currentPrice previousPrice candlesticks now
    let oldestPrice := seeded.1
    let history := seeded.2
    if oldestPrice > 0 ∧ history.length > 0 then
      let priceChange := (currentPrice - oldestPrice) / oldestPrice
      let absChange := |priceChange|
      let tier : Option ℕ :=
        if absChange ≥ 20/100 then some 20
        else if absChange ≥ 10/100 then some 10
        else if absChange ≥ 5/100 then some 5
        else none
      match tier with
      | some t =>
        let alert : Alert :=
          { ticker := m.ticker
            title := marketTitle m
            currentPrice := currentPrice
            oldPrice := oldestPrice
            priceChange := priceChange * 100
            direction := if priceChange > 0 then "up" else "down"
            minPrice := min oldestPrice currentPrice
            maxPrice := max oldestPrice currentPrice
            timestamp := now
            tier := t }
        let r := registerAlert st alert
        (r.1, some history, r.2)
      | none => (st, some history, [])
    else (st, some [(⟨currentPrice, now⟩ : Sample)], [])

/-- Samples are time-ordered (non-decreasing `observedAt`). -/
def timeOrdered (h : History) : Prop :=
  h.Pairwise (fun a b => a.timestamp ≤ b.timestamp)

/-- A candlestick whose `open` (50 cents) differs from its `close`
(10 cents). -/
def cCandle : Candle := { openPrice := 50, close := 10, end_period_ts := 43200 }

/-- The history the bootstrap seeds from `cCandle` plus the fresh current
sample. -/
def bHist : History := [⟨1/10, 43200000⟩, ⟨65/100, 43201000⟩]

/-- The alert the bootstrap fires for `wMarket` over `cCandle`: reference is
the candle's `open` (0.50), so `percentChange = 30`. -/
def bAlert : Alert :=
  { ticker := "M", title := "T", currentPrice := 65/100, oldPrice := 1/2,
    priceChange := 30, direction := "up", minPrice := 1/2, maxPrice := 65/100,
    timestamp := 43201000, tier := 20 }

/-- The alert a poll cycle over the seeded history `bHist` fires: reference
is the seeded series' oldest price, the candle's `close` (0.10), so
`percentChange = 550`. -/
def pAlert : Alert :=
  { ticker := "M", title := "T", currentPrice := 65/100, oldPrice := 1/10,
    priceChange := 550, direction := "up", minPrice := 1/10, maxPrice := 65/100,
    timestamp := 43201000, tier := 20 }

/-- The market used by the C7 witness: previous price 40 cents, current 65
cents. -/
def fMarket : Market := { wMarket with previous_price := 40 }

/-- An upstream HTTP response; only the status code matters to the retry
logic. -/
structure Response where
  status : ℕ
deriving Repr, DecidableEq

/-- The spec's fetch-error taxonomy (spec §7). The embedded
`rateLimitedFetch` never produces one: the source returns the retry's
response to the caller unconditionally. -/
inductive FetchError where
  | RateLimited
  | UpstreamError (status : ℕ)
  | TransportError
deriving Repr, DecidableEq

/-- The 429-retry logic of `rateLimitedFetch` (index.js lines 43-65):
`first` is the response the initial fetch returns, `retry` the response a
second fetch would return. Result: the outcome delivered to the caller, the
number of fetch calls made, and the cooldown sleeps performed (ms). The
minimum-spacing wait of lines 34-41 is inter-call timing, orthogonal to the
retry behaviour. -/
def rateLimitedFetch (first retry : Response) :
    Except FetchError Response × ℕ × List ℤ :=
  if first.status = 429 then (Except.ok retry, 2, [3000])
  else (Except.ok first, 1, [])

/-- One page outcome from the markets endpoint: a parsed body (markets plus
optional pagination cursor), a non-OK HTTP response, or a thrown error. -/
inductive PageResult where
  | ok (markets : List Market) (cursor : Option String)
  | httpError (status : ℕ)
  | thrown
deriving DecidableEq

/-- JS truthiness of `data.cursor`: absent and the empty string are falsy. -/
def cursorTruthy : Option String → Bool
  | none => false
  | some s => !(s == "")

/-- The pagination loop of `fetchActiveMarkets` (index.js lines 69-110).
`server n` is the outcome of the `n`-th page request; `pages` is the loop's
page counter, `acc` the markets collected so far. Returns the collected
markets (filtered to nonzero volume and nonzero last price, line 92-94) and
the number of page requests made. A non-OK response breaks out (line 87)
and a thrown error is caught (line 106): both return the markets collected
so far. -/
def fetchGo (server : ℕ → PageResult) (pages : ℕ) (acc : List Market) :
    List Market × ℕ :=
  match server pages with
  | .httpError _ => (acc, 1)
  | .thrown => (acc, 1)
  | .ok ms cursor =>
    let acc2 := acc ++ ms.filter (fun m => decide (0 < m.volume) && decide (0 < m.last_price))
    if h : 10 ≤ pages + 1 ∨ 1000 ≤ acc2.length then (acc2, 1)
    else if cursorTruthy cursor then
      let r := fetchGo server (pages + 1) acc2
      (r.1, r.2 + 1)
    else (acc2, 1)
termination_by 10 - pages
decreasing_by
  simp_wf
  omega

/-- `fetchActiveMarkets` (index.js lines 69-110): run the pagination loop
from page 0 with nothing accumulated. -/
def fetchActiveMarkets (server : ℕ → PageResult) : List Market × ℕ :=
  fetchGo server 0 []

/-- The degenerate upstream used by the C10 witness: every request throws. -/
def wServer : ℕ → PageResult := fun _ => PageResult.thrown

/-- C1: for a nonzero reference price `r`, the classification computes
`delta = (c - r) / r` and returns tier 20 iff `|delta| ≥ 0.20`, else tier 10
iff `|delta| ≥ 0.10`, else tier 5 iff `|delta| ≥ 0.05`, else no alert; any
returned alert carries `percentChange = delta * 100`, direction `up` when
`delta > 0` and `down` otherwise, and `delta = 0` never yields an alert. -/
theorem claim1_classification (tk tt : String) (c r minP maxP : ℚ) (now : ℤ)
    (hr : r ≠ 0) :
    ((20:ℚ)/100 ≤ |deltaOf c r| →
      (classifyAlert tk tt c r minP maxP now).map Alert.tier = some 20) ∧
    ((10:ℚ)/100 ≤ |deltaOf c r| → |deltaOf c r| < 20/100 →
      (classifyAlert tk tt c r minP maxP now).map Alert.tier = some 10) ∧
    ((5:ℚ)/100 ≤ |deltaOf c r| → |deltaOf c r| < 10/100 →
      (classifyAlert tk tt c r minP maxP now).map Alert.tier = some 5) ∧
    (|deltaOf c r| < 5/100 → classifyAlert tk tt c r minP maxP now = none) ∧
    (∀ a, classifyAlert tk tt c r minP maxP now = some a →
      a.priceChange = deltaOf c r * 100 ∧
      a.direction = (if deltaOf c r > 0 then "up" else "down") ∧
      a.oldPrice = r ∧ a.currentPrice = c) ∧
    (deltaOf c r = 0 → classifyAlert tk tt c r minP maxP now = none) := by
  unfold classifyAlert deltaOf
  simp only [if_neg hr]
  set d := (c - r) / r with hd
  refine ⟨?_, ?_, ?_, ?_, ?_, ?_⟩
  · intro h
    rw [if_pos h]
    rfl
  · intro h1 h2
    rw [if_neg (by exact not_le.mpr h2), if_pos h1]
    rfl
  · intro h1 h2
    rw [if_neg (by exact not_le.mpr (lt_of_lt_of_le h2 (by norm_num))),
        if_neg (by exact not_le.mpr h2), if_pos h1]
    rfl
  · intro h
    rw [if_neg (by exact not_le.mpr (lt_of_lt_of_le h (by norm_num))),
        if_neg (by exact not_le.mpr (lt_of_lt_of_le h (by norm_num))),
        if_neg (by exact not_le.mpr h)]
  · intro a ha
    by_cases h20 : |d| ≥ 20/100
    · rw [if_pos h20] at ha
      cases ha
      exact ⟨rfl, rfl, rfl, rfl⟩
    · rw [if_neg h20] at ha
      by_cases h10 : |d| ≥ 10/100
      · rw [if_pos h10] at ha
        cases ha
        exact ⟨rfl, rfl, rfl, rfl⟩
      · rw [if_neg h10] at ha
        by_cases h5 : |d| ≥ 5/100
        · rw [if_pos h5] at ha
          cases ha
          exact ⟨rfl, rfl, rfl, rfl⟩
        · rw [if_neg h5] at ha
          cases ha
  · intro h0
    have habs : |d| < 5/100 := by
      rw [h0]
      norm_num
    rw [if_neg (by exact not_le.mpr (lt_of_lt_of_le habs (by norm_num))),
        if_neg (by exact not_le.mpr (lt_of_lt_of_le habs (by norm_num))),
        if_neg (by exact not_le.mpr habs)]

/-- C1 witness: at `current = 1.30`, `reference = 1` the classification
returns tier 20. -/
theorem claim1_classification_witness :
    (classifyAlert "X" "T" (13/10) 1 0 0 0).map Alert.tier = some 20 :=
  (claim1_classification "X" "T" (13/10) 1 0 0 0 (by norm_num)).1
    (by
      unfold deltaOf
      rw [show ((13:ℚ)/10 - 1)/1 = 3/10 by norm_num, abs_of_nonneg (by norm_num)]
      norm_num)

/-- Any alert produced by the classification carries the ticker it was
called with. -/
theorem classifyAlert_ticker {tk tt : String} {c r mp xp : ℚ} {n : ℤ} {a : Alert}
    (h : classifyAlert tk tt c r mp xp n = some a) : a.ticker = tk := by
  unfold classifyAlert at h
  split at h
  · simp at h
  · dsimp only at h
    split at h
    · cases h
      rfl
    · simp at h

/-- Any alert produced by `checkVolatility` carries the ticker it was called
with. -/
theorem checkVolatility_ticker {hist : History} {tk tt : String} {c : ℚ} {n : ℤ} {a : Alert}
    (h : (checkVolatility hist tk tt c n).2 = some a) : a.ticker = tk := by
  unfold checkVolatility at h
  dsimp only at h
  split at h
  · simp at h
  · dsimp only at h
    exact classifyAlert_ticker h

/-- C8: one run of `cleanupAlerts` keeps an entry of a tier map iff the entry
was there before and its firing time is not older than `now - WINDOW_MS`;
equivalently, it removes exactly the alerts with `firedAt < now - WINDOW_MS`
and no others. The statement is relative to an arbitrary input state, so it
holds no matter how often (or seldom) cleanup runs. -/
theorem claim8_cleanup_exact (st : Registry) (now : ℤ) (k : String) (a : Alert) :
    ((k, a) ∈ (cleanupAlerts st now).tier20 ↔
      (k, a) ∈ st.tier20 ∧ now - WINDOW_MS ≤ a.timestamp) ∧
    ((k, a) ∈ (cleanupAlerts st now).tier10 ↔
      (k, a) ∈ st.tier10 ∧ now - WINDOW_MS ≤ a.timestamp) ∧
    ((k, a) ∈ (cleanupAlerts st now).tier5 ↔
      (k, a) ∈ st.tier5 ∧ now - WINDOW_MS ≤ a.timestamp) := by
  unfold cleanupAlerts
  refine ⟨?_, ?_, ?_⟩ <;>
    simp [List.mem_filter, not_lt]

/-- C6: if a poll-cycle evaluation of a market classifies it into a tier
whose registry map already contains that ticker, the whole registry is left
unchanged (in particular the stored alert and its firing time) and nothing
is broadcast. -/
theorem claim6_sticky_tier (st : Registry) (hist : History) (m : Market) (now : ℤ)
    (alert : Alert)
    (hcls : (checkVolatility hist m.ticker (marketTitle m) (marketCurrentPrice m) now).2
      = some alert)
    (hhas : tierHas (st.getTier alert.tier) m.ticker = true) :
    (pollStep st hist m now).1 = st ∧ (pollStep st hist m now).2.2 = [] := by
  unfold pollStep
  by_cases hz : marketCurrentPrice m = 0
  · rw [if_pos hz]
    exact ⟨rfl, rfl⟩
  · rw [if_neg hz]
    have heta :
        checkVolatility hist m.ticker (marketTitle m) (marketCurrentPrice m) now
          = ((checkVolatility hist m.ticker (marketTitle m) (marketCurrentPrice m) now).1,
             some alert) := by
      rw [← hcls]
    rw [heta]
    have htk : alert.ticker = m.ticker := checkVolatility_ticker hcls
    simp [registerAlert, htk, hhas]

/-- Evaluation fact shared by witnesses: the poll-cycle classification of
`wMarket` over `wHist` at time 1000 yields exactly `wAlert`. -/
theorem checkVolatility_wMarket :
    (checkVolatility wHist wMarket.ticker (marketTitle wMarket) (marketCurrentPrice wMarket)
      1000).2 = some wAlert := by
  have ht : marketTitle wMarket = "T" := by decide
  have hp : marketCurrentPrice wMarket = 65/100 := by
    norm_num [marketCurrentPrice, jsOr, wMarket]
  rw [ht, hp]
  norm_num [checkVolatility, recordSample, WINDOW_MS, classifyAlert, listMin, listMax,
    wHist, wMarket, wAlert, List.filter, min_def, max_def, abs_of_nonneg]

/-- C6 witness: with `wAlert` already registered in tier 20, the poll step
leaves the registry unchanged and broadcasts nothing. -/
theorem claim6_sticky_tier_witness :
    (pollStep wRegistry wHist wMarket 1000).1 = wRegistry ∧
    (pollStep wRegistry wHist wMarket 1000).2.2 = [] :=
  claim6_sticky_tier wRegistry wHist wMarket 1000 wAlert checkVolatility_wMarket (by decide)

/-- Full evaluation of the first-cycle classification of `wMarket`. -/
theorem checkVolatility_wMarket_eval :
    checkVolatility wHist wMarket.ticker (marketTitle wMarket) (marketCurrentPrice wMarket)
      1000 = ([⟨1/2, 0⟩, ⟨65/100, 1000⟩], some wAlert) := by
  have ht : marketTitle wMarket = "T" := by decide
  have hp : marketCurrentPrice wMarket = 65/100 := by
    norm_num [marketCurrentPrice, jsOr, wMarket]
  rw [ht, hp]
  norm_num [checkVolatility, recordSample, WINDOW_MS, classifyAlert, listMin, listMax,
    wHist, wMarket, wAlert, List.filter, min_def, max_def, abs_of_nonneg]

/-- Full evaluation of the first poll step from an empty registry. -/
theorem pollStep_wMarket_eval :
    pollStep emptyRegistry wHist wMarket 1000
      = (⟨[("M", wAlert)], [], []⟩, [⟨1/2, 0⟩, ⟨65/100, 1000⟩], [wAlert]) := by
  unfold pollStep
  have hp : marketCurrentPrice wMarket = 65/100 := by
    norm_num [marketCurrentPrice, jsOr, wMarket]
  rw [hp, if_neg (by norm_num)]
  rw [show checkVolatility wHist wMarket.ticker (marketTitle wMarket) (65/100) 1000
      = ([⟨1/2, 0⟩, ⟨65/100, 1000⟩], some wAlert) from hp ▸ checkVolatility_wMarket_eval]
  simp [registerAlert, Registry.getTier, Registry.setTier, tierHas, tierSet, wAlert,
    emptyRegistry]

/-- Full evaluation of the second-cycle classification of `wMarket2` over the
history left by the first cycle. -/
theorem checkVolatility_wMarket2_eval :
    checkVolatility [⟨1/2, 0⟩, ⟨65/100, 1000⟩] wMarket2.ticker (marketTitle wMarket2)
      (marketCurrentPrice wMarket2) 2000
      = ([⟨1/2, 0⟩, ⟨65/100, 1000⟩, ⟨53/100, 2000⟩], some wAlert2) := by
  have ht : marketTitle wMarket2 = "T" := by decide
  have hp : marketCurrentPrice wMarket2 = 53/100 := by
    norm_num [marketCurrentPrice, jsOr, wMarket2, wMarket]
  rw [ht, hp]
  norm_num [checkVolatility, recordSample, WINDOW_MS, classifyAlert, listMin, listMax,
    wAlert2, wMarket2, wMarket, List.filter, min_def, max_def, abs_of_nonneg]

/-- Full evaluation of the second poll step. -/
theorem pollStep_wMarket2_eval :
    pollStep (⟨[("M", wAlert)], [], []⟩ : Registry) [⟨1/2, 0⟩, ⟨65/100, 1000⟩] wMarket2 2000
      = (⟨[("M", wAlert)], [], [("M", wAlert2)]⟩,
         [⟨1/2, 0⟩, ⟨65/100, 1000⟩, ⟨53/100, 2000⟩], [wAlert2]) := by
  unfold pollStep
  have hp : marketCurrentPrice wMarket2 = 53/100 := by
    norm_num [marketCurrentPrice, jsOr, wMarket2, wMarket]
  rw [hp, if_neg (by norm_num)]
  rw [show checkVolatility [⟨1/2, 0⟩, ⟨65/100, 1000⟩] wMarket2.ticker (marketTitle wMarket2)
        (53/100) 2000
      = ([⟨1/2, 0⟩, ⟨65/100, 1000⟩, ⟨53/100, 2000⟩], some wAlert2)
      from hp ▸ checkVolatility_wMarket2_eval]
  simp [registerAlert, Registry.getTier, Registry.setTier, tierHas, tierSet, wAlert2]

/-- C2 counterexample: on the first cycle `wMarket`'s |percentChange| is 30%,
which crosses the 5% tier's threshold, yet the 5% collection does not
receive the instrument — only the single highest crossed tier (20%) does. -/
theorem claim2_counterexample :
    (5:ℚ)/100 ≤ |deltaOf (marketCurrentPrice wMarket) (1/2)| ∧
    (pollStep emptyRegistry wHist wMarket 1000).1.tier5 = [] ∧
    (pollStep emptyRegistry wHist wMarket 1000).1.tier20 = [("M", wAlert)] := by
  refine ⟨?_, ?_, ?_⟩
  · rw [show deltaOf (marketCurrentPrice wMarket) (1/2) = 3/10 by
        norm_num [deltaOf, marketCurrentPrice, jsOr, wMarket],
      abs_of_nonneg (by norm_num)]
    norm_num
  · rw [pollStep_wMarket_eval]
  · rw [pollStep_wMarket_eval]

/-- If a key is absent from a tier map, `tierSet` appends, so existing
entries survive. -/
theorem mem_tierSet_of_mem {mm : TierMap} {k : String} {v : Alert} {p : String × Alert}
    (hk : tierHas mm k = false) (hp : p ∈ mm) : p ∈ tierSet mm k v := by
  unfold tierSet
  rw [hk]
  simp [hp]

/-- C2 (amended): a poll step never removes an entry from any tier map, and
tier collections accumulate independently across cycles: on the concrete
two-cycle run the instrument ends up simultaneously in the 20% map (from the
first cycle, |percentChange| = 30%) and in the 5% map (from the second
cycle, |percentChange| = 6%). Within a single cycle only the highest crossed
tier receives the instrument. -/
theorem claim2_tiers_independent :
    (∀ (st : Registry) (hist : History) (m : Market) (now : ℤ) (p : String × Alert),
      (p ∈ st.tier20 → p ∈ (pollStep st hist m now).1.tier20) ∧
      (p ∈ st.tier10 → p ∈ (pollStep st hist m now).1.tier10) ∧
      (p ∈ st.tier5 → p ∈ (pollStep st hist m now).1.tier5)) ∧
    ((pollStep (pollStep emptyRegistry wHist wMarket 1000).1
        (pollStep emptyRegistry wHist wMarket 1000).2.1 wMarket2 2000).1.tier20
        = [("M", wAlert)] ∧
     (pollStep (pollStep emptyRegistry wHist wMarket 1000).1
        (pollStep emptyRegistry wHist wMarket 1000).2.1 wMarket2 2000).1.tier5
        = [("M", wAlert2)]) := by
  constructor
  · intro st hist m now p
    unfold pollStep
    by_cases hz : marketCurrentPrice m = 0
    · rw [if_pos hz]
      exact ⟨id, id, id⟩
    · rw [if_neg hz]
      rcases hcv : checkVolatility hist m.ticker (marketTitle m) (marketCurrentPrice m) now
        with ⟨h2, ao⟩
      cases ao with
      | none => exact ⟨id, id, id⟩
      | some al =>
        dsimp only
        unfold registerAlert
        by_cases hhas : tierHas (st.getTier al.tier) al.ticker
        · rw [if_pos hhas]
          exact ⟨id, id, id⟩
        · rw [if_neg hhas]
          rw [Bool.not_eq_true] at hhas
          unfold Registry.setTier Registry.getTier
          unfold Registry.getTier at hhas
          split_ifs at hhas ⊢ with h20 h10
          · exact ⟨fun hp => mem_tierSet_of_mem hhas hp, id, id⟩
          · exact ⟨id, fun hp => mem_tierSet_of_mem hhas hp, id⟩
          · exact ⟨id, id, fun hp => mem_tierSet_of_mem hhas hp⟩
  · rw [pollStep_wMarket_eval]
    rw [pollStep_wMarket2_eval]
    exact ⟨rfl, rfl⟩

/-- C2 witness: the amended preservation statement applied concretely — the
tier-20 entry installed on the first cycle survives the second cycle. -/
theorem claim2_tiers_independent_witness :
    ("M", wAlert) ∈ (pollStep (⟨[("M", wAlert)], [], []⟩ : Registry)
      [⟨1/2, 0⟩, ⟨65/100, 1000⟩] wMarket2 2000).1.tier20 :=
  (claim2_tiers_independent.1 ⟨[("M", wAlert)], [], []⟩ [⟨1/2, 0⟩, ⟨65/100, 1000⟩]
    wMarket2 2000 ("M", wAlert)).1 (by simp)

/-- C3 counterexample: on the registry with tier-20 `percentChange`s
`+22, -35, +21`, the `/api/alerts` query sorts to `[-35, +22, +21]` but the
initial WebSocket snapshot delivers the raw insertion order
`[+22, -35, +21]` — the two consumers do not use the identical ordering. -/
theorem claim3_counterexample :
    (apiSnapshot cRegistry).1.map Alert.priceChange = [-35, 22, 21] ∧
    (wsInitialSnapshot cRegistry).1.map Alert.priceChange = [22, -35, 21] ∧
    wsInitialSnapshot cRegistry ≠ apiSnapshot cRegistry := by
  have hapi : (apiSnapshot cRegistry).1.map Alert.priceChange = [-35, 22, 21] := by
    norm_num [apiSnapshot, sortAlerts, tierValues, cRegistry, cAlertA, cAlertB, cAlertC,
      List.mergeSort, List.merge]
  have hws : (wsInitialSnapshot cRegistry).1.map Alert.priceChange = [22, -35, 21] := by
    norm_num [wsInitialSnapshot, tierValues, cRegistry, cAlertA, cAlertB, cAlertC]
  refine ⟨hapi, hws, fun h => ?_⟩
  have h1 := congrArg (fun s : List Alert × List Alert × List Alert =>
    s.1.map Alert.priceChange) h
  dsimp only at h1
  rw [hapi, hws] at h1
  simp at h1
  exact absurd h1.1 (by norm_num)

/-- The query interface's per-tier sort really is descending by absolute
`percentChange`. -/
theorem sortAlerts_sorted (l : List Alert) :
    (sortAlerts l).Pairwise (fun a b => |b.priceChange| ≤ |a.priceChange|) := by
  unfold sortAlerts
  refine List.Pairwise.imp ?_ (List.sorted_mergeSort ?_ ?_ l)
  · intro a b h
    exact of_decide_eq_true h
  · intro a b c hab hbc
    rw [decide_eq_true_eq] at hab hbc ⊢
    exact le_trans hbc hab
  · intro a b
    rcases le_total |b.priceChange| |a.priceChange| with h | h <;> simp [h]

/-- C3 (amended): the `/api/alerts` query presents every tier list sorted by
descending absolute `percentChange` (and as a permutation of the registered
alerts), while the snapshot sent to a subscriber on connect presents each
tier's alerts in raw registry insertion order with no sort applied; the two
consumers therefore do not share an ordering contract. -/
theorem claim3_snapshot_ordering (st : Registry) :
    ((apiSnapshot st).1.Pairwise (fun a b => |b.priceChange| ≤ |a.priceChange|) ∧
     (apiSnapshot st).2.1.Pairwise (fun a b => |b.priceChange| ≤ |a.priceChange|) ∧
     (apiSnapshot st).2.2.Pairwise (fun a b => |b.priceChange| ≤ |a.priceChange|)) ∧
    ((apiSnapshot st).1.Perm (tierValues st.tier20) ∧
     (apiSnapshot st).2.1.Perm (tierValues st.tier10) ∧
     (apiSnapshot st).2.2.Perm (tierValues st.tier5)) ∧
    wsInitialSnapshot st
      = (tierValues st.tier20, tierValues st.tier10, tierValues st.tier5) := by
  refine ⟨⟨sortAlerts_sorted _, sortAlerts_sorted _, sortAlerts_sorted _⟩,
    ⟨?_, ?_, ?_⟩, rfl⟩ <;>
  exact List.mergeSort_perm _ _

/-- Any history a bootstrap iteration stores is either the seeded series or
the single-current-sample fallback. -/
theorem bootstrapStep_history {st : Registry} {m : Market} {cs : List Candle} {now : ℤ}
    {h : History} (hst : (bootstrapStep st m cs now).2.1 = some h) :
    h = (bootstrapSeed (marketCurrentPrice m) (marketPreviousPrice m) cs now).2 ∨
    h = [⟨marketCurrentPrice m, now⟩] := by
  unfold bootstrapStep at hst
  dsimp only at hst
  split at hst
  · simp at hst
  · split at hst
    · split at hst
      · dsimp only at hst
        cases hst
        exact Or.inl rfl
      · cases hst
        exact Or.inl rfl
    · cases hst
      exact Or.inr rfl

/-- The seeded history is time-ordered and inside the window, provided the
fetched candles are time-ordered and carry timestamps inside the requested
12-hour range (the range `fetchCandlesticks` asks the source for). -/
theorem bootstrapSeed_invariant (cur prev : ℚ) (cs : List Candle) (now : ℤ)
    (hsort : cs.Pairwise (fun a b => a.end_period_ts ≤ b.end_period_ts))
    (hwin : ∀ c ∈ cs, now - WINDOW_MS ≤ c.end_period_ts * 1000 ∧
      c.end_period_ts * 1000 ≤ now) :
    timeOrdered (bootstrapSeed cur prev cs now).2 ∧
    ∀ s ∈ (bootstrapSeed cur prev cs now).2,
      now - WINDOW_MS ≤ s.timestamp ∧ s.timestamp ≤ now := by
  have hW : (0:ℤ) ≤ WINDOW_MS := by norm_num [WINDOW_MS]
  unfold bootstrapSeed
  match cs with
  | c0 :: rest =>
    dsimp only
    constructor
    · unfold timeOrdered
      rw [List.pairwise_append]
      refine ⟨?_, List.pairwise_singleton _ _, ?_⟩
      · refine List.Pairwise.map _ ?_ hsort
        intro a b hab
        dsimp only
        exact mul_le_mul_of_nonneg_right hab (by norm_num)
      · intro a ha b hb
        rw [List.mem_singleton] at hb
        subst hb
        rw [List.mem_map] at ha
        obtain ⟨c, hc, rfl⟩ := ha
        exact (hwin c hc).2
    · intro s hs
      rw [List.mem_append] at hs
      rcases hs with hs | hs
      · rw [List.mem_map] at hs
        obtain ⟨c, hc, rfl⟩ := hs
        exact hwin c hc
      · rw [List.mem_singleton] at hs
        subst hs
        exact ⟨by show now - WINDOW_MS ≤ now; omega, le_refl _⟩
  | [] =>
    dsimp only
    split
    · constructor
      · unfold timeOrdered
        refine List.pairwise_cons.mpr ⟨?_, List.pairwise_singleton _ _⟩
        intro s hs
        rw [List.mem_singleton] at hs
        subst hs
        show now - WINDOW_MS ≤ now
        omega
      · intro s hs
        rw [List.mem_cons, List.mem_singleton] at hs
        rcases hs with rfl | rfl
        · exact ⟨le_refl _, by show now - WINDOW_MS ≤ now; omega⟩
        · exact ⟨by show now - WINDOW_MS ≤ now; omega, le_refl _⟩
    · exact ⟨List.Pairwise.nil, by intro s hs; cases hs⟩

/-- C5: (i) after every call to the history-recording step, every retained
sample satisfies `observedAt ≥ now - WINDOW_MS`; (ii) if the series was
time-ordered and all its samples are no newer than `now`, it stays
time-ordered (and still capped by `now`) after the call — so a sequence of
record calls at non-decreasing times preserves the invariant; (iii) any
history stored by a bootstrap iteration satisfies the same invariant,
provided the fetched candles are time-ordered and lie inside the requested
12-hour range. -/
theorem claim5_record_window :
    (∀ (hist : History) (p : ℚ) (now : ℤ) (s : Sample),
      s ∈ recordSample hist p now → now - WINDOW_MS ≤ s.timestamp) ∧
    (∀ (hist : History) (p : ℚ) (now : ℤ),
      timeOrdered hist → (∀ s ∈ hist, s.timestamp ≤ now) →
      timeOrdered (recordSample hist p now) ∧
        ∀ s ∈ recordSample hist p now, s.timestamp ≤ now) ∧
    (∀ (st : Registry) (m : Market) (cs : List Candle) (now : ℤ) (h : History),
      (bootstrapStep st m cs now).2.1 = some h →
      cs.Pairwise (fun a b => a.end_period_ts ≤ b.end_period_ts) →
      (∀ c ∈ cs, now - WINDOW_MS ≤ c.end_period_ts * 1000 ∧
        c.end_period_ts * 1000 ≤ now) →
      timeOrdered h ∧ ∀ s ∈ h, now - WINDOW_MS ≤ s.timestamp ∧ s.timestamp ≤ now) := by
  have hW : (0:ℤ) ≤ WINDOW_MS := by norm_num [WINDOW_MS]
  refine ⟨?_, ?_, ?_⟩
  · intro hist p now s hs
    unfold recordSample at hs
    rw [List.mem_filter] at hs
    simpa using hs.2
  · intro hist p now hord hle
    constructor
    · unfold recordSample timeOrdered
      refine List.Pairwise.sublist (List.filter_sublist _) ?_
      rw [List.pairwise_append]
      refine ⟨hord, List.pairwise_singleton _ _, ?_⟩
      intro a ha b hb
      rw [List.mem_singleton] at hb
      subst hb
      exact hle a ha
    · intro s hs
      unfold recordSample at hs
      rw [List.mem_filter, List.mem_append] at hs
      rcases hs.1 with h1 | h1
      · exact hle s h1
      · rw [List.mem_singleton] at h1
        subst h1
        exact le_refl _
  · intro st m cs now h hst hsort hwin
    rcases bootstrapStep_history hst with rfl | rfl
    · exact bootstrapSeed_invariant _ _ _ _ hsort hwin
    · refine ⟨List.pairwise_singleton _ _, ?_⟩
      intro s hs
      rw [List.mem_singleton] at hs
      subst hs
      exact ⟨by show now - WINDOW_MS ≤ now; omega, le_refl _⟩

/-- C5 witness: recording a sample at time 1000 on the one-sample history
`wHist` keeps the series time-ordered, capped by 1000, and inside the
window. -/
theorem claim5_record_window_witness :
    (∀ s ∈ recordSample wHist (65/100) 1000, 1000 - WINDOW_MS ≤ s.timestamp) ∧
    (timeOrdered (recordSample wHist (65/100) 1000) ∧
      ∀ s ∈ recordSample wHist (65/100) 1000, s.timestamp ≤ 1000) :=
  ⟨fun s hs => claim5_record_window.1 wHist (65/100) 1000 s hs,
   claim5_record_window.2.1 wHist (65/100) 1000
     (List.pairwise_singleton _ _)
     (by
       intro s hs
       rw [wHist, List.mem_singleton] at hs
       subst hs
       norm_num)⟩

/-- C9: (i) whenever the retained series' reference (oldest) price is
exactly 0, `checkVolatility` returns no alert — even when the series holds
two or more samples; (ii) the classification itself returns `none` for a
zero reference before the percent-change division is reached; (iii) when
the bootstrap's reference price is 0, the bootstrap iteration performs no
classification: the registry is unchanged and nothing is pushed. -/
theorem claim9_zero_reference_guard :
    (∀ (hist : History) (tk tt : String) (cur : ℚ) (now : ℤ),
      ((recordSample hist cur now).headD default).price = 0 →
      (checkVolatility hist tk tt cur now).2 = none) ∧
    (∀ (tk tt : String) (c minP maxP : ℚ) (now : ℤ),
      classifyAlert tk tt c 0 minP maxP now = none) ∧
    (∀ (st : Registry) (m : Market) (cs : List Candle) (now : ℤ),
      (bootstrapSeed (marketCurrentPrice m) (marketPreviousPrice m) cs now).1 = 0 →
      (bootstrapStep st m cs now).1 = st ∧ (bootstrapStep st m cs now).2.2 = []) := by
  have hz : ∀ (tk tt : String) (c minP maxP : ℚ) (now : ℤ),
      classifyAlert tk tt c 0 minP maxP now = none := by
    intro tk tt c minP maxP now
    unfold classifyAlert
    rw [if_pos rfl]
  refine ⟨?_, hz, ?_⟩
  · intro hist tk tt cur now h0
    unfold checkVolatility
    dsimp only
    split
    · rfl
    · rw [h0, hz]
  · intro st m cs now h0
    unfold bootstrapStep
    dsimp only
    split
    · exact ⟨rfl, rfl⟩
    · rw [h0]
      rw [if_neg (by simp)]
      exact ⟨rfl, rfl⟩

/-- C9 witness: a two-sample series whose oldest price is 0 yields no alert. -/
theorem claim9_zero_reference_guard_witness :
    2 ≤ (recordSample [⟨0, 0⟩] (1/2) 1000).length ∧
    (checkVolatility [⟨0, 0⟩] "Z" "Z" (1/2) 1000).2 = none :=
  ⟨by norm_num [recordSample, WINDOW_MS, List.filter],
   claim9_zero_reference_guard.1 [⟨0, 0⟩] "Z" "Z" (1/2) 1000
     (by norm_num [recordSample, WINDOW_MS, List.filter])⟩

/-- Full evaluation of the bootstrap iteration over `cCandle`. -/
theorem bootstrapStep_cCandle_eval :
    bootstrapStep emptyRegistry wMarket [cCandle] 43201000
      = (⟨[("M", bAlert)], [], []⟩, some bHist, [bAlert]) := by
  have ht : marketTitle wMarket = "T" := by decide
  unfold bootstrapStep
  rw [ht]
  norm_num [marketCurrentPrice, marketPreviousPrice, jsOr, wMarket, bootstrapSeed, cCandle,
    bAlert, bHist, registerAlert, Registry.getTier, Registry.setTier, tierHas, tierSet,
    emptyRegistry, abs_of_nonneg]

/-- Full evaluation of a poll step over the bootstrap-seeded history. -/
theorem pollStep_bHist_eval :
    pollStep emptyRegistry bHist wMarket 43201000
      = (⟨[("M", pAlert)], [], []⟩,
         [⟨1/10, 43200000⟩, ⟨65/100, 43201000⟩, ⟨65/100, 43201000⟩], [pAlert]) := by
  have ht : marketTitle wMarket = "T" := by decide
  have hp : marketCurrentPrice wMarket = 65/100 := by
    norm_num [marketCurrentPrice, jsOr, wMarket]
  have hcv : checkVolatility bHist wMarket.ticker (marketTitle wMarket) (65/100) 43201000
      = ([⟨1/10, 43200000⟩, ⟨65/100, 43201000⟩, ⟨65/100, 43201000⟩], some pAlert) := by
    rw [ht]
    norm_num [checkVolatility, recordSample, WINDOW_MS, classifyAlert, listMin, listMax,
      bHist, wMarket, pAlert, List.filter, min_def, max_def, abs_of_nonneg]
  unfold pollStep
  rw [hp, if_neg (by norm_num)]
  rw [show checkVolatility bHist wMarket.ticker (marketTitle wMarket) (65/100) 43201000
      = ([⟨1/10, 43200000⟩, ⟨65/100, 43201000⟩, ⟨65/100, 43201000⟩], some pAlert)
      from hcv]
  simp [registerAlert, Registry.getTier, Registry.setTier, tierHas, tierSet, pAlert,
    emptyRegistry]

/-- C7 counterexample: seeding from a candle whose `open` (0.50) differs
from its `close` (0.10) makes the bootstrap classify against the `open`
price (`percentChange = 30`) while a poll cycle over the very history the
bootstrap just seeded classifies against the oldest stored price, the
`close` (`percentChange = 550`) — different alerts, different pushes. -/
theorem claim7_counterexample :
    (bootstrapStep emptyRegistry wMarket [cCandle] 43201000).2.1 = some bHist ∧
    (bootstrapStep emptyRegistry wMarket [cCandle] 43201000).2.2.map Alert.priceChange
      = [30] ∧
    (pollStep emptyRegistry bHist wMarket 43201000).2.2.map Alert.priceChange = [550] ∧
    (bootstrapStep emptyRegistry wMarket [cCandle] 43201000).2.2
      ≠ (pollStep emptyRegistry bHist wMarket 43201000).2.2 := by
  rw [bootstrapStep_cCandle_eval, pollStep_bHist_eval]
  refine ⟨rfl, by norm_num [bAlert], by norm_num [pAlert], fun h => ?_⟩
  have h1 := congrArg (List.map Alert.priceChange) h
  norm_num [bAlert, pAlert] at h1

/-- C7 (amended): in the previous-price fallback path (no candlesticks) the
bootstrap does agree with the poll cycle: it seeds the two-point history
`[previous @ now-window, current @ now]` and produces exactly the registry
effects and pushes that a poll step over that same seeded history at the
same time would produce. (In the candlestick path the two can diverge: the
bootstrap classifies against the oldest candle's `open` and takes min/max
over only the endpoints, the poll cycle against the oldest stored `close`
and min/max over the whole series.) -/
theorem claim7_bootstrap_fallback_refines_poll (st : Registry) (m : Market) (now : ℤ)
    (hcur : marketCurrentPrice m ≠ 0)
    (hprev : 0 < marketPreviousPrice m)
    (hne : marketPreviousPrice m ≠ marketCurrentPrice m) :
    (bootstrapStep st m [] now).2.1
      = some [⟨marketPreviousPrice m, now - WINDOW_MS⟩, ⟨marketCurrentPrice m, now⟩] ∧
    (bootstrapStep st m [] now).1
      = (pollStep st [⟨marketPreviousPrice m, now - WINDOW_MS⟩,
          ⟨marketCurrentPrice m, now⟩] m now).1 ∧
    (bootstrapStep st m [] now).2.2
      = (pollStep st [⟨marketPreviousPrice m, now - WINDOW_MS⟩,
          ⟨marketCurrentPrice m, now⟩] m now).2.2 := by
  have hW0 : (0:ℤ) ≤ WINDOW_MS := by norm_num [WINDOW_MS]
  have hW1 : now - WINDOW_MS ≤ now := by omega
  set cur := marketCurrentPrice m with hcurDef
  set prev := marketPreviousPrice m with hprevDef
  have hseed : bootstrapSeed cur prev [] now
      = (prev, [⟨prev, now - WINDOW_MS⟩, ⟨cur, now⟩]) := by
    unfold bootstrapSeed
    rw [if_pos ⟨hprev, hne⟩]
  have hrec : recordSample [⟨prev, now - WINDOW_MS⟩, ⟨cur, now⟩] cur now
      = [⟨prev, now - WINDOW_MS⟩, ⟨cur, now⟩, ⟨cur, now⟩] := by
    unfold recordSample
    simp [List.filter, hW1]
  have hcv : checkVolatility [⟨prev, now - WINDOW_MS⟩, ⟨cur, now⟩] m.ticker (marketTitle m)
      cur now
      = ([⟨prev, now - WINDOW_MS⟩, ⟨cur, now⟩, ⟨cur, now⟩],
         classifyAlert m.ticker (marketTitle m) cur prev (min prev cur) (max prev cur)
           now) := by
    unfold checkVolatility
    dsimp only
    rw [hrec]
    rw [if_neg (by norm_num)]
    dsimp only [List.headD, listMin, listMax, List.map, List.foldl]
    rw [min_assoc, min_self, max_assoc, max_self]
  have hboot : bootstrapStep st m [] now
      = match classifyAlert m.ticker (marketTitle m) cur prev (min prev cur) (max prev cur)
          now with
        | some a => ((registerAlert st a).1,
            some [⟨prev, now - WINDOW_MS⟩, ⟨cur, now⟩], (registerAlert st a).2)
        | none => (st, some [⟨prev, now - WINDOW_MS⟩, ⟨cur, now⟩], []) := by
    unfold bootstrapStep
    dsimp only
    rw [if_neg hcur, hseed]
    dsimp only
    rw [if_pos ⟨hprev, by norm_num⟩]
    unfold classifyAlert
    rw [if_neg (ne_of_gt hprev)]
    dsimp only
    by_cases h20 : |(cur - prev) / prev| ≥ 20/100
    · rw [if_pos h20]
    · rw [if_neg h20]
      by_cases h10 : |(cur - prev) / prev| ≥ 10/100
      · rw [if_pos h10]
      · rw [if_neg h10]
        by_cases h5 : |(cur - prev) / prev| ≥ 5/100
        · rw [if_pos h5]
        · rw [if_neg h5]
  have hpoll : pollStep st [⟨prev, now - WINDOW_MS⟩, ⟨cur, now⟩] m now
      = match classifyAlert m.ticker (marketTitle m) cur prev (min prev cur) (max prev cur)
          now with
        | some a => ((registerAlert st a).1,
            [⟨prev, now - WINDOW_MS⟩, ⟨cur, now⟩, ⟨cur, now⟩], (registerAlert st a).2)
        | none => (st, [⟨prev, now - WINDOW_MS⟩, ⟨cur, now⟩, ⟨cur, now⟩], []) := by
    unfold pollStep
    rw [if_neg hcur, hcv]
    cases classifyAlert m.ticker (marketTitle m) cur prev (min prev cur) (max prev cur)
      now with
    | none => rfl
    | some a => rfl
  rw [hboot, hpoll]
  cases classifyAlert m.ticker (marketTitle m) cur prev (min prev cur) (max prev cur)
    now with
  | none => exact ⟨rfl, rfl, rfl⟩
  | some a => exact ⟨rfl, rfl, rfl⟩

/-- C7 witness: for `fMarket` at time `WINDOW_MS` the fallback bootstrap
and the poll step over the seeded two-point history agree on registry and
pushes. -/
theorem claim7_bootstrap_fallback_refines_poll_witness :
    (bootstrapStep emptyRegistry fMarket [] WINDOW_MS).2.1
      = some [⟨marketPreviousPrice fMarket, WINDOW_MS - WINDOW_MS⟩,
          ⟨marketCurrentPrice fMarket, WINDOW_MS⟩] ∧
    (bootstrapStep emptyRegistry fMarket [] WINDOW_MS).1
      = (pollStep emptyRegistry [⟨marketPreviousPrice fMarket, WINDOW_MS - WINDOW_MS⟩,
          ⟨marketCurrentPrice fMarket, WINDOW_MS⟩] fMarket WINDOW_MS).1 ∧
    (bootstrapStep emptyRegistry fMarket [] WINDOW_MS).2.2
      = (pollStep emptyRegistry [⟨marketPreviousPrice fMarket, WINDOW_MS - WINDOW_MS⟩,
          ⟨marketCurrentPrice fMarket, WINDOW_MS⟩] fMarket WINDOW_MS).2.2 :=
  claim7_bootstrap_fallback_refines_poll emptyRegistry fMarket WINDOW_MS
    (by norm_num [marketCurrentPrice, jsOr, fMarket, wMarket])
    (by norm_num [marketPreviousPrice, jsOr, fMarket, wMarket])
    (by norm_num [marketPreviousPrice, marketCurrentPrice, jsOr, fMarket, wMarket])

/-- C4 counterexample: when the retry also returns 429, the call does not
fail with `RateLimited` — the second throttled response is returned to the
caller as an ordinary successful outcome. -/
theorem claim4_counterexample :
    rateLimitedFetch ⟨429⟩ ⟨429⟩ = (Except.ok ⟨429⟩, 2, [3000]) ∧
    (rateLimitedFetch ⟨429⟩ ⟨429⟩).1 ≠ Except.error FetchError.RateLimited := by
  refine ⟨rfl, fun h => ?_⟩
  rw [show (rateLimitedFetch ⟨429⟩ ⟨429⟩).1 = Except.ok ⟨429⟩ from rfl] at h
  exact Except.noConfusion h

/-- C4 (amended): on a 429 the fetch waits the fixed 3000 ms cooldown and
retries exactly once, then returns whatever the retry produced — even a
second 429 — to the caller; a non-429 first response is returned after one
call; the function never surfaces a `FetchError`. -/
theorem claim4_retry_once (first retry : Response) :
    (first.status = 429 →
      rateLimitedFetch first retry = (Except.ok retry, 2, [3000])) ∧
    (first.status ≠ 429 →
      rateLimitedFetch first retry = (Except.ok first, 1, [])) ∧
    (∀ e, (rateLimitedFetch first retry).1 ≠ Except.error e) := by
  unfold rateLimitedFetch
  refine ⟨?_, ?_, ?_⟩
  · intro h
    rw [if_pos h]
  · intro h
    rw [if_neg h]
  · intro e
    split <;> simp

/-- C4 witness: a 429 followed by a 200 yields the 200 after exactly two
fetch calls and one 3000 ms cooldown. -/
theorem claim4_retry_once_witness :
    rateLimitedFetch ⟨429⟩ ⟨200⟩ = (Except.ok ⟨200⟩, 2, [3000]) :=
  (claim4_retry_once ⟨429⟩ ⟨200⟩).1 rfl

/-- The pagination loop makes at most `k` requests when `k` pages remain
before the 10-page limit. -/
theorem fetchGo_requests_le (server : ℕ → PageResult) :
    ∀ (k pages : ℕ) (acc : List Market), pages + k = 10 → 1 ≤ k →
      (fetchGo server pages acc).2 ≤ k := by
  intro k
  induction k with
  | zero =>
    intro pages acc _ h1
    exact absurd h1 (by norm_num)
  | succ n ih =>
    intro pages acc hk _
    unfold fetchGo
    match server pages with
    | .httpError _ => simp
    | .thrown => simp
    | .ok ms cursor =>
      dsimp only
      split
      · simp
      · split
        · rename_i hstop _
          have hn : 1 ≤ n := by omega
          have := ih (pages + 1)
            (acc ++ ms.filter (fun m => decide (0 < m.volume) && decide (0 < m.last_price)))
            (by omega) hn
          dsimp only
          omega
        · simp

/-- C10: (i) the market-universe fetch makes at most 10 page requests;
(ii) once 1000 or more markets have accumulated after a page, the loop
stops with that page's request being the last; (iii) a falsy cursor stops
the loop likewise; (iv) a non-OK response or a thrown error ends the fetch
with the markets collected so far returned — not an error. -/
theorem claim10_pagination_bound :
    (∀ server : ℕ → PageResult, (fetchActiveMarkets server).2 ≤ 10) ∧
    (∀ (server : ℕ → PageResult) (pages : ℕ) (acc : List Market)
      (ms : List Market) (cursor : Option String),
      server pages = .ok ms cursor →
      1000 ≤ (acc ++ ms.filter
        (fun m => decide (0 < m.volume) && decide (0 < m.last_price))).length →
      fetchGo server pages acc
        = (acc ++ ms.filter
            (fun m => decide (0 < m.volume) && decide (0 < m.last_price)), 1)) ∧
    (∀ (server : ℕ → PageResult) (pages : ℕ) (acc : List Market)
      (ms : List Market) (cursor : Option String),
      server pages = .ok ms cursor → cursorTruthy cursor = false →
      fetchGo server pages acc
        = (acc ++ ms.filter
            (fun m => decide (0 < m.volume) && decide (0 < m.last_price)), 1)) ∧
    (∀ (server : ℕ → PageResult) (pages : ℕ) (acc : List Market),
      (server pages = .thrown → fetchGo server pages acc = (acc, 1)) ∧
      (∀ s, server pages = .httpError s → fetchGo server pages acc = (acc, 1))) := by
  refine ⟨?_, ?_, ?_, ?_⟩
  · intro server
    exact fetchGo_requests_le server 10 0 [] rfl (by norm_num)
  · intro server pages acc ms cursor hs hlen
    unfold fetchGo
    rw [hs]
    dsimp only
    rw [dif_pos (Or.inr hlen)]
  · intro server pages acc ms cursor hs hcur
    unfold fetchGo
    rw [hs]
    dsimp only
    split
    · rfl
    · rw [if_neg (by rw [hcur]; exact Bool.false_ne_true)]
  · intro server pages acc
    constructor
    · intro hs
      unfold fetchGo
      rw [hs]
    · intro s hs
      unfold fetchGo
      rw [hs]

/-- C10 witness: against `wServer` the fetch returns the empty collection
after one request, and the request bound holds. -/
theorem claim10_pagination_bound_witness :
    fetchGo wServer 0 [] = ([], 1) ∧ (fetchActiveMarkets wServer).2 ≤ 10 :=
  ⟨(claim10_pagination_bound.2.2.2 wServer 0 []).1 rfl,
   claim10_pagination_bound.1 wServer⟩
